import Mathlib

/-!
Shallow embedding, in Lean 4, of the core data model and operations of the
pombase-chado-json repository (a Rust program), for verifying its
natural-language specification.  Rust types are translated as follows:
`RcString`/`String` become `String`, `usize`/`u64` become `Nat`,
`f32`/`f64` become `Rat` (only order comparisons are performed on them),
`Vec<T>` becomes `List T`, `Option<T>` becomes `Option T`,
`Result<T, E>` becomes `Except E T`, `HashSet` becomes either a `List`
used only through membership or a `Finset` where its element collection
is observed, and a Rust `panic!`/`expect`/`unwrap` failure inside a
function whose Rust type is not `Result` is modelled by the `error`
branch of an `Except String` codomain (so that panics are observable).
-/

namespace Pombase

/-! ## Generic first-occurrence deduplication

Both `exec_or` (src/pombase/api/query.rs) and `table_for_export`
(src/pombase/annotation_util.rs) run the same loop shape: keep a `seen`
set and an output vector, and push each generated element onto the output
only if it has not been seen, inserting it into `seen`.  The helpers
below capture that loop and its specification: `dedupFirstFrom seen l`
is the list of elements of `l` not in `seen`, keeping only the first
occurrence of each element, in first-seen order. -/

/-- Keep the elements of the list not in `seen`, first occurrences only,
in first-seen order. -/
def dedupFirstFrom {α : Type} [DecidableEq α] (seen : List α) : List α → List α
  | [] => []
  | x :: xs =>
    if x ∈ seen then dedupFirstFrom seen xs
    else x :: dedupFirstFrom (x :: seen) xs

/-- Deduplicate a list keeping the first occurrence of each element. -/
def dedupFirst {α : Type} [DecidableEq α] (l : List α) : List α :=
  dedupFirstFrom [] l

/-- One step of the seen-set/output-vector loop: push `x` unless seen. -/
def dedupStep {α : Type} [DecidableEq α] (st : List α × List α) (x : α) :
    List α × List α :=
  if x ∈ st.1 then st else (x :: st.1, st.2 ++ [x])

/-- Run the seen-set/output-vector loop over a whole list. -/
def stepAll {α : Type} [DecidableEq α] (st : List α × List α) (l : List α) :
    List α × List α :=
  l.foldl dedupStep st

theorem mem_dedupFirstFrom {α : Type} [DecidableEq α] (seen l : List α) (a : α) :
    a ∈ dedupFirstFrom seen l ↔ a ∈ l ∧ a ∉ seen := by
  induction l generalizing seen with
  | nil => simp [dedupFirstFrom]
  | cons x xs ih =>
    by_cases hx : x ∈ seen
    · simp only [dedupFirstFrom, if_pos hx, ih, List.mem_cons]
      constructor
      · rintro ⟨h1, h2⟩
        exact ⟨Or.inr h1, h2⟩
      · rintro ⟨rfl | h1, h2⟩
        · exact absurd hx h2
        · exact ⟨h1, h2⟩
    · simp only [dedupFirstFrom, if_neg hx, List.mem_cons, ih]
      constructor
      · rintro (rfl | ⟨h1, h2⟩)
        · exact ⟨Or.inl rfl, hx⟩
        · exact ⟨Or.inr h1, fun h => h2 (Or.inr h)⟩
      · rintro ⟨rfl | h1, h2⟩
        · exact Or.inl rfl
        · by_cases hax : a = x
          · exact Or.inl hax
          · exact Or.inr ⟨h1, fun h => h.elim hax h2⟩

theorem nodup_dedupFirstFrom {α : Type} [DecidableEq α] (seen l : List α) :
    (dedupFirstFrom seen l).Nodup := by
  induction l generalizing seen with
  | nil => simp [dedupFirstFrom]
  | cons x xs ih =>
    by_cases hx : x ∈ seen
    · simpa [dedupFirstFrom, hx] using ih seen
    · simp only [dedupFirstFrom, if_neg hx, List.nodup_cons]
      refine ⟨?_, ih (x :: seen)⟩
      intro hmem
      rw [mem_dedupFirstFrom] at hmem
      exact hmem.2 (List.mem_cons_self x seen)

theorem dedupFirstFrom_sublist {α : Type} [DecidableEq α] (seen l : List α) :
    (dedupFirstFrom seen l).Sublist l := by
  induction l generalizing seen with
  | nil => simp [dedupFirstFrom]
  | cons x xs ih =>
    by_cases hx : x ∈ seen
    · simpa [dedupFirstFrom, hx] using (ih seen).cons x
    · simpa [dedupFirstFrom, hx] using (ih (x :: seen)).cons₂ x

theorem dedupFirstFrom_append {α : Type} [DecidableEq α] (seen l1 l2 : List α) :
    dedupFirstFrom seen (l1 ++ l2)
      = dedupFirstFrom seen l1
        ++ dedupFirstFrom ((dedupFirstFrom seen l1).reverse ++ seen) l2 := by
  induction l1 generalizing seen with
  | nil => simp [dedupFirstFrom]
  | cons x xs ih =>
    by_cases hx : x ∈ seen
    · simp [dedupFirstFrom, hx, ih]
    · have h1 : dedupFirstFrom seen ((x :: xs) ++ l2)
          = x :: dedupFirstFrom (x :: seen) (xs ++ l2) := by
        simp [dedupFirstFrom, hx]
      rw [h1, ih (x :: seen)]
      simp [dedupFirstFrom, hx, List.reverse_cons, List.append_assoc]

theorem stepAll_eq {α : Type} [DecidableEq α] (seen res l : List α) :
    stepAll (seen, res) l
      = ((dedupFirstFrom seen l).reverse ++ seen, res ++ dedupFirstFrom seen l) := by
  induction l generalizing seen res with
  | nil => simp [stepAll, dedupFirstFrom]
  | cons x xs ih =>
    by_cases hx : x ∈ seen
    · simpa [stepAll, dedupFirstFrom, dedupStep, hx, List.foldl_cons] using ih seen res
    · have h2 : stepAll (seen, res) (x :: xs) = stepAll (x :: seen, res ++ [x]) xs := by
        simp [stepAll, dedupStep, hx]
      rw [h2, ih]
      simp [dedupFirstFrom, hx, List.reverse_cons, List.append_assoc]

theorem nodup_dedupFirst {α : Type} [DecidableEq α] (l : List α) :
    (dedupFirst l).Nodup :=
  nodup_dedupFirstFrom [] l

theorem mem_dedupFirst {α : Type} [DecidableEq α] (l : List α) (a : α) :
    a ∈ dedupFirst l ↔ a ∈ l := by
  simp [dedupFirst, mem_dedupFirstFrom]

theorem dedupFirst_sublist {α : Type} [DecidableEq α] (l : List α) :
    (dedupFirst l).Sublist l :=
  dedupFirstFrom_sublist [] l

/-! ## String comparison

Embedding of the Rust total order on strings (`Ord for String`): a
three-valued comparison derived from the linear order on `String`.  The
precise order of strings is irrelevant to the verified claims; what
matters is that `strCmp a b = .eq` exactly when `a = b`. -/

/-- Three-way string comparison, embedding the `Ord` instance used by
the Rust source for `RcString` fields. -/
def strCmp (a b : String) : Ordering :=
  if a < b then Ordering.lt
  else if a = b then Ordering.eq
  else Ordering.gt

theorem strCmp_eq_iff (a b : String) : strCmp a b = Ordering.eq ↔ a = b := by
  unfold strCmp
  by_cases h1 : a < b
  · simp only [if_pos h1]
    constructor
    · intro h
      cases h
    · intro h
      subst h
      exact absurd h1 (lt_irrefl a)
  · simp only [if_neg h1]
    by_cases h2 : a = b
    · simp [h2]
    · simp only [if_neg h2]
      constructor
      · intro h
        cases h
      · intro h
        exact absurd h h2

theorem strCmp_self (a : String) : strCmp a a = Ordering.eq := by
  rw [strCmp_eq_iff]

/-- Three-way comparison on `Option String`, embedding Rust
`Option::cmp`: `None` orders before `Some`, two `Some`s compare their
contents. -/
def optStrCmp : Option String → Option String → Ordering
  | none, none => Ordering.eq
  | none, some _ => Ordering.lt
  | some _, none => Ordering.gt
  | some a, some b => strCmp a b

/-! ## Short-form records and their orderings (src/pombase/web/data.rs) -/

/-- Embedding of `GeneShort` from src/pombase/web/data.rs. -/
structure GeneShort where
  uniquename : String
  name : Option String
  product : Option String
  deriving Repr, DecidableEq

/-- Embedding of `impl Ord for GeneShort` (src/pombase/web/data.rs lines
175-187): genes with a name order before genes without one; two named
genes compare by name; two unnamed genes compare by uniquename. -/
def GeneShort.cmp (a b : GeneShort) : Ordering :=
  if a.name.isSome then
    if b.name.isSome then optStrCmp a.name b.name
    else Ordering.lt
  else
    if b.name.isSome then Ordering.gt
    else strCmp a.uniquename b.uniquename

/-- Embedding of `TermShort` from src/pombase/web/data.rs.  The fields
not consulted by the comparison function (`cv_name`,
`interesting_parents`, `is_obsolete`, counts, `xrefs`) are carried as
plain data. -/
structure TermShort where
  name : String
  cv_name : String
  interesting_parents : List String
  termid : String
  is_obsolete : Bool
  gene_count : Nat
  genotype_count : Nat
  deriving Repr, DecidableEq

/-- Embedding of `impl Ord for TermShort` (src/pombase/web/data.rs lines
277-286): compare by name; on a tie compare by termid. -/
def TermShort.cmp (a b : TermShort) : Ordering :=
  let order := strCmp a.name b.name
  if order = Ordering.eq then strCmp a.termid b.termid
  else order

/-! ## Genomic data model (src/pombase/web/data.rs) -/

/-- A Rust panic made observable: `panicked msg` models a call to
`panic!`/`expect`/`unwrap` failing with `msg`; `ret` is normal return. -/
inductive PanicOr (α : Type) where
  | panicked (msg : String)
  | ret (val : α)
  deriving Repr, DecidableEq

/-- Embedding of `Strand` from src/pombase/web/data.rs. -/
inductive Strand where
  | Forward
  | Reverse
  | Unstranded
  deriving Repr, DecidableEq

/-- Embedding of `Phase` from src/pombase/web/data.rs. -/
inductive Phase where
  | Zero
  | One
  | Two
  deriving Repr, DecidableEq

/-- Embedding of `ChromosomeLocation` from src/pombase/web/data.rs. -/
structure ChromosomeLocation where
  chromosome_name : String
  start_pos : Nat
  end_pos : Nat
  strand : Strand
  phase : Option Phase
  deriving Repr, DecidableEq

/-- Embedding of `FeatureType` from src/pombase/web/data.rs. -/
inductive FeatureType where
  | FivePrimeUtr
  | FivePrimeUtrIntron
  | Exon
  | CdsIntron
  | ThreePrimeUtr
  | ThreePrimeUtrIntron
  | DGRepeat
  | DHRepeat
  | Gap
  | GeneGroup
  | LongTerminalRepeat
  | LowComplexityRegion
  | LTRRetrotransposon
  | MatingTypeRegion
  | NuclearMtPseudogene
  | OriginOfReplication
  | PolyASignalSequence
  | PolyASite
  | Promoter
  | Region
  | RegionalCentromere
  | RegionalCentromereCentralCore
  | RegionalCentromereInnerRepeatRegion
  | RepeatRegion
  | TRBox
  | SNP
  deriving Repr, DecidableEq

/-- Embedding of `FeatureShort` from src/pombase/web/data.rs. -/
structure FeatureShort where
  feature_type : FeatureType
  uniquename : String
  location : ChromosomeLocation
  residues : String
  deriving Repr, DecidableEq

/-- Embedding of `ProteinDetails` from src/pombase/web/data.rs; the
`f32` physicochemical scalars become `Rat` (they are only compared). -/
structure ProteinDetails where
  uniquename : String
  sequence : String
  molecular_weight : Rat
  average_residue_weight : Rat
  charge_at_ph7 : Rat
  isoelectric_point : Rat
  codon_adaptation_index : Rat
  deriving Repr, DecidableEq

/-- Embedding of `TranscriptDetails` from src/pombase/web/data.rs. -/
structure TranscriptDetails where
  uniquename : String
  location : ChromosomeLocation
  parts : List FeatureShort
  transcript_type : String
  protein : Option ProteinDetails
  cds_location : Option ChromosomeLocation
  deriving Repr, DecidableEq

/-- Embedding of `APIGeneSummary` from src/pombase/web/data.rs. -/
structure APIGeneSummary where
  uniquename : String
  name : Option String
  product : Option String
  uniprot_identifier : Option String
  exact_synonyms : List String
  dbxrefs : List String
  location : Option ChromosomeLocation
  transcripts : List TranscriptDetails
  tm_domain_count : Nat
  exon_count : Nat
  deriving Repr, DecidableEq

/-- Embedding of `GeneDetails` from src/pombase/web/data.rs, restricted
to the field consulted by `spliced_transcript_sequence` (`transcripts`)
plus the identity field; the many annotation, interaction and
cross-reference fields of the Rust struct are not consulted by any
operation verified here and are elided. -/
structure GeneDetails where
  uniquename : String
  transcripts : List TranscriptDetails
  deriving Repr, DecidableEq

/-- Embedding of `GeneDetails::spliced_transcript_sequence`
(src/pombase/web/data.rs lines 742-760): panics on a multi-transcript
gene, returns `none` for a transcript-less gene, and otherwise returns
the concatenation of the residues of the `Exon` parts of the first
transcript, in part order. -/
def GeneDetails.spliced_transcript_sequence (gene : GeneDetails) :
    PanicOr (Option String) :=
  if gene.transcripts.length > 1 then
    PanicOr.panicked "no support for multi-transcript genes"
  else
    match gene.transcripts.head? with
    | some transcript =>
      let seq := (transcript.parts.filter
        (fun part => part.feature_type = FeatureType.Exon)).foldl
          (fun acc part => acc ++ part.residues) ""
      PanicOr.ret (some seq)
    | none => PanicOr.ret none

/-! ## Query engine (src/pombase/api/query.rs) -/

/-- Gene identifier (`GeneUniquename` in src/pombase/types.rs). -/
abbrev GeneUniquename := String

/-- Embedding of `IntRangeType` from src/pombase/api/query.rs. -/
inductive IntRangeType where
  | GenomeRangeContains
  | ProteinLength
  | TMDomainCount
  | ExonCount
  deriving Repr, DecidableEq

/-- Embedding of `FloatRangeType` from src/pombase/api/query.rs. -/
inductive FloatRangeType where
  | ProteinMolWeight
  deriving Repr, DecidableEq

/-- Embedding of `SingleOrMultiAllele` from src/pombase/api/query.rs. -/
inductive SingleOrMultiAllele where
  | Single
  | Multi
  | Both
  deriving Repr, DecidableEq

/-- Embedding of `QueryExpressionFilter` from src/pombase/api/query.rs. -/
inductive QueryExpressionFilter where
  | Any
  | Null
  | WtOverexpressed
  deriving Repr, DecidableEq

/-- Embedding of `QueryNode` from src/pombase/api/query.rs. -/
inductive QueryNode where
  | Or (nodes : List QueryNode)
  | And (nodes : List QueryNode)
  | Not (node_a : QueryNode) (node_b : QueryNode)
  | Term (termid : String) (name : Option String)
      (single_or_multi_allele : Option SingleOrMultiAllele)
      (expression : Option QueryExpressionFilter)
  | Subset (subset_name : String)
  | GeneList (ids : List GeneUniquename)
  | IntRange (range_type : IntRangeType) (start : Option Nat) («end» : Option Nat)
  | FloatRange (range_type : FloatRangeType) (start : Option Rat) («end» : Option Rat)

/-- Modelled from the spec: `ServerData` (src/pombase/api/server_data.rs
is not under src/) is the in-memory gene index the query engine
evaluates against.  The spec describes it as precomputed per-gene
summaries plus term/genotype/subset membership indexes; the three index
functions are left abstract (their content does not matter to the
verified claims) and `filter_genes` filters the gene summaries. -/
structure ServerData where
  geneSummaries : List APIGeneSummary
  genes_of_termid : String → List GeneUniquename
  genes_of_genotypes :
    String → SingleOrMultiAllele → Option QueryExpressionFilter → List GeneUniquename
  genes_of_subset : String → List GeneUniquename

/-- Modelled from the spec: return the uniquenames of the gene summaries
accepted by the predicate. -/
def ServerData.filter_genes (sd : ServerData) (p : APIGeneSummary → Bool) :
    List GeneUniquename :=
  (sd.geneSummaries.filter p).map (fun gene => gene.uniquename)

/-- The closure passed to `filter_genes` by `exec_genome_range_overlaps`
(src/pombase/api/query.rs lines 161-175). -/
def genome_range_filter (range_start range_end : Option Nat)
    (gene : APIGeneSummary) : Bool :=
  match gene.location with
  | some location =>
    (match range_end with
     | none => true
     | some re => decide (location.start_pos ≤ re))
    && (match range_start with
     | none => true
     | some rs => decide (location.end_pos ≥ rs))
  | none => false

/-- The closure passed to `filter_genes` by `exec_protein_length_range`
(src/pombase/api/query.rs lines 177-195): looks at the protein of the
first transcript, if any. -/
def protein_length_filter (range_start range_end : Option Nat)
    (gene : APIGeneSummary) : Bool :=
  match gene.transcripts.head? with
  | some transcript =>
    match transcript.protein with
    | some protein =>
      (match range_start with
       | none => true
       | some rs => decide (protein.sequence.length ≥ rs))
      && (match range_end with
       | none => true
       | some re => decide (protein.sequence.length ≤ re))
    | none => false
  | none => false

/-- The closure passed to `filter_genes` by `exec_tm_domain_count_range`
(src/pombase/api/query.rs lines 197-207). -/
def tm_domain_count_filter (range_start range_end : Option Nat)
    (gene : APIGeneSummary) : Bool :=
  (match range_start with
   | none => true
   | some rs => decide (gene.tm_domain_count ≥ rs))
  && (match range_end with
   | none => true
   | some re => decide (gene.tm_domain_count ≤ re))

/-- The closure passed to `filter_genes` by `exec_exon_count_range`
(src/pombase/api/query.rs lines 209-219). -/
def exon_count_filter (range_start range_end : Option Nat)
    (gene : APIGeneSummary) : Bool :=
  (match range_start with
   | none => true
   | some rs => decide (gene.exon_count ≥ rs))
  && (match range_end with
   | none => true
   | some re => decide (gene.exon_count ≤ re))

/-- The closure passed to `filter_genes` by `exec_mol_weight_range`
(src/pombase/api/query.rs lines 231-250). -/
def mol_weight_filter (range_start range_end : Option Rat)
    (gene : APIGeneSummary) : Bool :=
  match gene.transcripts.head? with
  | some transcript =>
    match transcript.protein with
    | some protein =>
      (match range_start with
       | none => true
       | some rs => decide (protein.molecular_weight ≥ rs))
      && (match range_end with
       | none => true
       | some re => decide (protein.molecular_weight ≤ re))
    | none => false
  | none => false

/-- Embedding of `exec_termid` (src/pombase/api/query.rs lines 141-151). -/
def exec_termid (sd : ServerData) (term_id : String)
    (maybe_single_or_multi_allele : Option SingleOrMultiAllele)
    (expression : Option QueryExpressionFilter) :
    Except String (List GeneUniquename) :=
  match maybe_single_or_multi_allele with
  | some single_or_multi_allele =>
    Except.ok (sd.genes_of_genotypes term_id single_or_multi_allele expression)
  | none => Except.ok (sd.genes_of_termid term_id)

/-- Embedding of `exec_subset` (src/pombase/api/query.rs lines 153-155). -/
def exec_subset (sd : ServerData) (subset_name : String) :
    Except String (List GeneUniquename) :=
  Except.ok (sd.genes_of_subset subset_name)

/-- Embedding of `exec_gene_list` (src/pombase/api/query.rs lines 157-159). -/
def exec_gene_list (gene_uniquenames : List GeneUniquename) :
    Except String (List GeneUniquename) :=
  Except.ok gene_uniquenames

/-- Embedding of `exec_genome_range_overlaps` (src/pombase/api/query.rs
lines 161-175). -/
def exec_genome_range_overlaps (sd : ServerData)
    (range_start range_end : Option Nat) : Except String (List GeneUniquename) :=
  Except.ok (sd.filter_genes (genome_range_filter range_start range_end))

/-- Embedding of `exec_protein_length_range` (src/pombase/api/query.rs
lines 177-195). -/
def exec_protein_length_range (sd : ServerData)
    (range_start range_end : Option Nat) : Except String (List GeneUniquename) :=
  Except.ok (sd.filter_genes (protein_length_filter range_start range_end))

/-- Embedding of `exec_tm_domain_count_range` (src/pombase/api/query.rs
lines 197-207). -/
def exec_tm_domain_count_range (sd : ServerData)
    (range_start range_end : Option Nat) : Except String (List GeneUniquename) :=
  Except.ok (sd.filter_genes (tm_domain_count_filter range_start range_end))

/-- Embedding of `exec_exon_count_range` (src/pombase/api/query.rs lines
209-219). -/
def exec_exon_count_range (sd : ServerData)
    (range_start range_end : Option Nat) : Except String (List GeneUniquename) :=
  Except.ok (sd.filter_genes (exon_count_filter range_start range_end))

/-- Embedding of `exec_int_range` (src/pombase/api/query.rs lines
221-229). -/
def exec_int_range (sd : ServerData) (range_type : IntRangeType)
    (start «end» : Option Nat) : Except String (List GeneUniquename) :=
  match range_type with
  | IntRangeType.GenomeRangeContains => exec_genome_range_overlaps sd start «end»
  | IntRangeType.ProteinLength => exec_protein_length_range sd start «end»
  | IntRangeType.TMDomainCount => exec_tm_domain_count_range sd start «end»
  | IntRangeType.ExonCount => exec_exon_count_range sd start «end»

/-- Embedding of `exec_mol_weight_range` (src/pombase/api/query.rs lines
231-250). -/
def exec_mol_weight_range (sd : ServerData)
    (range_start range_end : Option Rat) : Except String (List GeneUniquename) :=
  Except.ok (sd.filter_genes (mol_weight_filter range_start range_end))

/-- Embedding of `exec_float_range` (src/pombase/api/query.rs lines
252-257). -/
def exec_float_range (sd : ServerData) (range_type : FloatRangeType)
    (start «end» : Option Rat) : Except String (List GeneUniquename) :=
  match range_type with
  | FloatRangeType.ProteinMolWeight => exec_mol_weight_range sd start «end»

mutual

/-- Embedding of `QueryNode::exec` (src/pombase/api/query.rs lines
259-280) together with `exec_or`, `exec_and` and `exec_not` (lines
77-139).  The `seen_genes` hash set of `exec_or` is modelled by a list
used only through membership, and the `HashSet` of gene ids built by
`exec_and` is modelled by a duplicate-free list: the source iterates
that hash set in an unspecified deterministic order, so the embedding
instantiates one deterministic order (first-seen), on which the
verified claims place no reliance beyond set equality. -/
def QueryNode.exec (sd : ServerData) : QueryNode → Except String (List GeneUniquename)
  | QueryNode.Or nodes =>
    if nodes.length = 0 then Except.error "illegal query: OR operator has no nodes"
    else exec_or_nodes sd nodes ([], [])
  | QueryNode.And nodes =>
    match nodes with
    | [] => Except.error "illegal query: AND operator has no nodes"
    | first :: rest =>
      match QueryNode.exec sd first with
      | Except.error e => Except.error e
      | Except.ok first_node_genes =>
        exec_and_nodes sd rest (dedupFirst first_node_genes)
  | QueryNode.Not node_a node_b =>
    match QueryNode.exec sd node_b with
    | Except.error e => Except.error e
    | Except.ok node_b_result =>
      match QueryNode.exec sd node_a with
      | Except.error e => Except.error e
      | Except.ok node_a_result =>
        Except.ok (node_a_result.filter (fun g => !(node_b_result.contains g)))
  | QueryNode.Term termid _ single_or_multi_allele expression =>
    exec_termid sd termid single_or_multi_allele expression
  | QueryNode.Subset subset_name => exec_subset sd subset_name
  | QueryNode.GeneList ids => exec_gene_list ids
  | QueryNode.IntRange range_type start «end» => exec_int_range sd range_type start «end»
  | QueryNode.FloatRange range_type start «end» => exec_float_range sd range_type start «end»

/-- The loop of `exec_or` (src/pombase/api/query.rs lines 85-94): run
each node and merge its rows into the seen-set/output accumulator. -/
def exec_or_nodes (sd : ServerData) :
    List QueryNode → List GeneUniquename × List GeneUniquename →
    Except String (List GeneUniquename)
  | [], st => Except.ok st.2
  | node :: rest, st =>
    match QueryNode.exec sd node with
    | Except.error e => Except.error e
    | Except.ok exec_rows => exec_or_nodes sd rest (stepAll st exec_rows)

/-- The loop of `exec_and` (src/pombase/api/query.rs lines 110-117):
intersect the running gene set with each further node result. -/
def exec_and_nodes (sd : ServerData) :
    List QueryNode → List GeneUniquename → Except String (List GeneUniquename)
  | [], current_gene_set => Except.ok current_gene_set
  | node :: rest, current_gene_set =>
    match QueryNode.exec sd node with
    | Except.error e => Except.error e
    | Except.ok node_result_rows =>
      exec_and_nodes sd rest
        (current_gene_set.filter (fun g => node_result_rows.contains g))

end

/-- Embedding of `SeqType` from src/pombase/api/query.rs. -/
inductive SeqType where
  | Protein
  | Nucleotide (include_introns : Bool) (include_5_prime_utr : Bool)
      (include_3_prime_utr : Bool)
  | NoSequence
  deriving Repr, DecidableEq

/-- Embedding of `QueryOutputOptions` from src/pombase/api/query.rs. -/
structure QueryOutputOptions where
  sequence : SeqType
  field_names : List String
  deriving Repr, DecidableEq

/-- Embedding of `ResultRow` (src/pombase/api/result.rs is not under
src/; the fields are those set by `Query::make_result_rows`). -/
structure ResultRow where
  sequence : Option String
  gene_uniquename : GeneUniquename
  deriving Repr, DecidableEq

/-- Embedding of `Query` from src/pombase/api/query.rs. -/
structure Query where
  output_options : QueryOutputOptions
  constraints : QueryNode

/-- Embedding of `Query::make_result_rows` (src/pombase/api/query.rs
lines 316-322). -/
def Query.make_result_rows (genes : List GeneUniquename) :
    Except String (List ResultRow) :=
  Except.ok (genes.map (fun gene_uniquename =>
    { sequence := none, gene_uniquename := gene_uniquename }))

/-- Embedding of `Query::exec` (src/pombase/api/query.rs lines 324-331). -/
def Query.exec (q : Query) (sd : ServerData) : Except String (List ResultRow) :=
  match q.constraints.exec sd with
  | Except.ok genes => Query.make_result_rows genes
  | Except.error err => Except.error err

/-! ## CV configuration (src/pombase/web/config.rs) -/

/-- Embedding of `AncestorFilterCategory` from src/pombase/web/config.rs. -/
structure AncestorFilterCategory where
  display_name : String
  ancestors : List String
  deriving Repr, DecidableEq

/-- Embedding of `FilterConfig` from src/pombase/web/config.rs. -/
structure FilterConfig where
  filter_name : String
  display_name : String
  term_categories : List AncestorFilterCategory
  extension_categories : List AncestorFilterCategory
  deriving Repr, DecidableEq

/-- Embedding of `SplitByParentsConfig` from src/pombase/web/config.rs. -/
structure SplitByParentsConfig where
  termids : List String
  display_name : String
  deriving Repr, DecidableEq

/-- Embedding of `CvConfig` from src/pombase/web/config.rs. -/
structure CvConfig where
  feature_type : String
  filters : List FilterConfig
  split_by_parents : List SplitByParentsConfig
  summary_relations_to_hide : List String
  summary_relation_ranges_to_collect : List String
  sort_details_by : Option (List String)
  deriving Repr, DecidableEq

/-- Embedding of Rust `str::starts_with` over the character list of the
string (the byte-level `String.startsWith` of the Lean library is
observably the same on the inputs that occur and is not
kernel-reducible, so the list form is used). -/
def strStartsWith (s pre : String) : Bool :=
  pre.data.isPrefixOf s.data

/-- Embedding of Rust `str::ends_with` over the character list. -/
def strEndsWith (s post : String) : Bool :=
  post.data.isSuffixOf s.data

/-- Embedding of `Config` from src/pombase/web/config.rs, restricted to
the `cv_config` map consulted by `cv_config_by_name` (the `HashMap`
lookup becomes a function into `Option`); the organism, chromosome,
evidence and export-path fields of the Rust struct are not consulted by
any operation verified here and are elided. -/
structure Config where
  cv_config : String → Option CvConfig

/-- Embedding of `Config::cv_config_by_name` (src/pombase/web/config.rs
lines 211-246): a missing entry falls back to a default `CvConfig`
whose feature type is inferred from the CV name pattern. -/
def Config.cv_config_by_name (config : Config) (cv_name : String) : CvConfig :=
  match config.cv_config cv_name with
  | some c => c
  | none =>
    if strStartsWith cv_name "extension:" then
      if strEndsWith cv_name ":gene" then
        { feature_type := "gene", filters := [], split_by_parents := [],
          summary_relations_to_hide := [], summary_relation_ranges_to_collect := [],
          sort_details_by := none }
      else
        { feature_type := "genotype", filters := [], split_by_parents := [],
          summary_relations_to_hide := [], summary_relation_ranges_to_collect := [],
          sort_details_by := none }
    else
      { feature_type := "gene", filters := [], split_by_parents := [],
        summary_relations_to_hide := [], summary_relation_ranges_to_collect := [],
        sort_details_by := none }

/-! ## Annotation table export (src/pombase/annotation_util.rs)

`table_for_export` consumes several types whose defining modules are
not under src/ (`api_data::APIData`, `data_types::TermDetails` of the
same revision, `config::AnnotationSubsetConfig`, and a revision of
`CvConfig` carrying a `single_or_multi_allele` field); those are
modelled below from the spec and from how `table_for_export` uses
them, each reduced to the fields that function consults.  Hash-map
fields that are only looked up become functions into `Option`; the
`cv_annotations` map, which is iterated, becomes an association list
(the iteration order of the source `HashMap` is unspecified; the claims
are stated relative to whatever generation order results). -/

/-- Modelled from the spec: one column of an annotation-subset export
configuration (`AnnotationSubsetConfig` columns, not under src/). -/
structure AnnotationSubsetColumnConfig where
  name : String
  deriving Repr, DecidableEq

/-- Modelled from the spec: the annotation-subset export configuration
(`AnnotationSubsetConfig`, not under src/): seed term ids, the
allele-cardinality class the export is restricted to, and the column
list. -/
structure AnnotationSubsetConfig where
  term_ids : List String
  single_or_multi_allele : SingleOrMultiAllele
  columns : List AnnotationSubsetColumnConfig
  deriving Repr, DecidableEq

/-- Modelled from the spec: the revision of `CvConfig` consumed by
`table_for_export` carries a `single_or_multi_allele` field (the
config.rs revision under src/ predates that field); only that field is
consulted by `table_for_export`. -/
structure ExportCvConfig where
  single_or_multi_allele : SingleOrMultiAllele
  deriving Repr, DecidableEq

/-- Embedding of `GenotypeShort` from src/pombase/web/data.rs,
restricted to the field consulted by `table_for_export`. -/
structure GenotypeShort where
  display_uniquename : String
  deriving Repr, DecidableEq

/-- Embedding of `OntAnnotationDetail` from src/pombase/web/data.rs,
restricted to the fields consulted by `table_for_export` (`genes` and
`genotype`); evidence, extension, qualifier and provenance fields are
elided. -/
structure ExportOntAnnotationDetail where
  genes : List String
  genotype : Option String
  deriving Repr, DecidableEq

/-- Embedding of `OntTermAnnotations` from src/pombase/web/data.rs,
restricted to the fields consulted by `table_for_export`. -/
structure ExportTermAnnotations where
  term : String
  is_not : Bool
  annotations : List Nat
  deriving Repr, DecidableEq

/-- Modelled from the spec: the term-details record consulted by
`table_for_export` (the `data_types::TermDetails` revision is not under
src/), reduced to the fields that function consults. -/
structure ExportTermDetails where
  cv_annotations : List (String × List ExportTermAnnotations)
  terms_by_termid : String → Option (Option TermShort)
  annotation_details : Nat → Option ExportOntAnnotationDetail
  genotypes_by_uniquename : String → Option GenotypeShort
  genes_by_uniquename : String → Option (Option GeneShort)

/-- Modelled from the spec: `APIData` (src/pombase/api_data.rs is not
under src/) as consulted by `table_for_export`: a term-details lookup. -/
structure APIData where
  get_term_details : String → Option ExportTermDetails

/-- A rendered export row: the vector of its string columns. -/
abbrev ExportRow := List String

/-- Map a panicking function over a list, propagating the first panic
(the loop aborts at the first panic, as in the source). -/
def panicMap {α β : Type} (f : α → PanicOr β) : List α → PanicOr (List β)
  | [] => PanicOr.ret []
  | x :: rest =>
    match f x with
    | PanicOr.panicked m => PanicOr.panicked m
    | PanicOr.ret y =>
      match panicMap f rest with
      | PanicOr.panicked m => PanicOr.panicked m
      | PanicOr.ret ys => PanicOr.ret (y :: ys)

/-- Like `panicMap`, then concatenate the per-element row lists. -/
def panicFlatMap {α β : Type} (f : α → PanicOr (List β)) (l : List α) :
    PanicOr (List β) :=
  match panicMap f l with
  | PanicOr.panicked m => PanicOr.panicked m
  | PanicOr.ret ys => PanicOr.ret ys.flatten

/-- The `gene_name` column of `table_for_export`
(src/pombase/annotation_util.rs lines 75-82): look up each gene
uniquename (double `unwrap`, so a missing or excluded gene panics),
keep the names that are present, and join them with commas. -/
def export_gene_names (genes_by_uniquename : String → Option (Option GeneShort))
    (gene_uniquenames : List String) : PanicOr String :=
  match panicMap (fun uniquename =>
      match genes_by_uniquename uniquename with
      | none => PanicOr.panicked "called Option::unwrap on a None value"
      | some none => PanicOr.panicked "called Option::unwrap on a None value"
      | some (some gene) => PanicOr.ret gene.name) gene_uniquenames with
  | PanicOr.panicked m => PanicOr.panicked m
  | PanicOr.ret names =>
    PanicOr.ret (String.intercalate "," (names.filterMap id))

/-- The cells one column config contributes to a row, mirroring the
sequence of `if` blocks in src/pombase/annotation_util.rs lines 55-83
(notably, an `allele` column contributes nothing when the annotation
has no genotype). -/
def export_column_cells (cv_name termid term_name : String)
    (maybe_genotype_short : Option GenotypeShort)
    (gene_uniquenames : List String)
    (genes_by_uniquename : String → Option (Option GeneShort))
    (column_name : String) : PanicOr (List String) :=
  let c1 := if column_name = "cv_name" then [cv_name] else []
  let c2 := if column_name = "termid" then [termid] else []
  let c3 := if column_name = "term_name" then [term_name] else []
  let c4 := if column_name = "allele" then
      (match maybe_genotype_short with
       | some genotype_short => [genotype_short.display_uniquename]
       | none => []) else []
  let c5 := if column_name = "gene_uniquename" then
      [String.intercalate "," gene_uniquenames] else []
  if column_name = "gene_name" then
    match export_gene_names genes_by_uniquename gene_uniquenames with
    | PanicOr.panicked m => PanicOr.panicked m
    | PanicOr.ret gene_names_string =>
      PanicOr.ret (c1 ++ c2 ++ c3 ++ c4 ++ c5 ++ [gene_names_string])
  else PanicOr.ret (c1 ++ c2 ++ c3 ++ c4 ++ c5)

/-- Build one row: the columns loop of src/pombase/annotation_util.rs
lines 55-83. -/
def export_build_row (cv_name termid term_name : String)
    (maybe_genotype_short : Option GenotypeShort)
    (gene_uniquenames : List String)
    (genes_by_uniquename : String → Option (Option GeneShort)) :
    List AnnotationSubsetColumnConfig → PanicOr ExportRow
  | [] => PanicOr.ret []
  | column_config :: rest =>
    match export_column_cells cv_name termid term_name maybe_genotype_short
        gene_uniquenames genes_by_uniquename column_config.name with
    | PanicOr.panicked m => PanicOr.panicked m
    | PanicOr.ret cells =>
      match export_build_row cv_name termid term_name maybe_genotype_short
          gene_uniquenames genes_by_uniquename rest with
      | PanicOr.panicked m => PanicOr.panicked m
      | PanicOr.ret row_rest => PanicOr.ret (cells ++ row_rest)

/-- The row generated for one annotation id (src/pombase/annotation_util.rs
lines 41-83): resolve the annotation detail (`expect` panics when it is
missing), its genes and its optional genotype short form, then build
the row. -/
def export_annotation_row (term_details : ExportTermDetails)
    (cv_name termid term_name : String)
    (columns : List AnnotationSubsetColumnConfig)
    (annotation_id : Nat) : PanicOr ExportRow :=
  match term_details.annotation_details annotation_id with
  | none => PanicOr.panicked "can\x27t find OntAnnotationDetail"
  | some annotation_details =>
    let gene_uniquenames := annotation_details.genes
    let maybe_genotype_short :=
      match annotation_details.genotype with
      | some genotype_uniquename =>
        term_details.genotypes_by_uniquename genotype_uniquename
      | none => none
    export_build_row cv_name termid term_name maybe_genotype_short
      gene_uniquenames term_details.genes_by_uniquename columns

/-- The rows generated for one `OntTermAnnotations` group
(src/pombase/annotation_util.rs lines 31-90): resolve the annotated
term (double `unwrap`), skip negated groups, then generate one row per
annotation id. -/
def export_term_annotation_rows (term_details : ExportTermDetails)
    (cv_name : String) (columns : List AnnotationSubsetColumnConfig)
    ( term_annotation : ExportTermAnnotations) : PanicOr (List ExportRow) :=
  match term_details.terms_by_termid term_annotation.term with
  | none => PanicOr.panicked "called Option::unwrap on a None value"
  | some none => PanicOr.panicked "called Option::unwrap on a None value"
  | some (some annotation_term_details) =>
    if term_annotation.is_not then PanicOr.ret []
    else
      panicFlatMap (fun annotation_id =>
        match export_annotation_row term_details cv_name term_annotation.term
            annotation_term_details.name columns annotation_id with
        | PanicOr.panicked m => PanicOr.panicked m
        | PanicOr.ret row => PanicOr.ret [row]) term_annotation.annotations

/-- The rows generated for one `(cv_name, term_annotations)` entry
(src/pombase/annotation_util.rs lines 22-91): panic when the CV has no
configuration entry, skip CVs whose allele-cardinality class differs
from the subset configuration. -/
def export_cv_rows (term_details : ExportTermDetails)
    (cv_config_map : String → Option ExportCvConfig)
    (subset_config : AnnotationSubsetConfig)
    (entry : String × List ExportTermAnnotations) : PanicOr (List ExportRow) :=
  match cv_config_map entry.1 with
  | none => PanicOr.panicked ("can\x27t find configuration for CV: " ++ entry.1)
  | some cv_config =>
    if subset_config.single_or_multi_allele ≠ cv_config.single_or_multi_allele then
      PanicOr.ret []
    else
      panicFlatMap (export_term_annotation_rows term_details entry.1
        subset_config.columns) entry.2

/-- The rows generated for one seed term id
(src/pombase/annotation_util.rs lines 18-92): panic when the term has
no details record. -/
def export_term_rows (api_data : APIData)
    (cv_config_map : String → Option ExportCvConfig)
    (subset_config : AnnotationSubsetConfig) (termid : String) :
    PanicOr (List ExportRow) :=
  match api_data.get_term_details termid with
  | none =>
    PanicOr.panicked ("no term details found for " ++ termid ++ " for config file")
  | some term_details =>
    panicFlatMap (export_cv_rows term_details cv_config_map subset_config)
      term_details.cv_annotations

/-- All rows of `table_for_export` in generation order, before
duplicate suppression. -/
def export_generated_rows (api_data : APIData)
    (cv_config_map : String → Option ExportCvConfig)
    (subset_config : AnnotationSubsetConfig) : PanicOr (List ExportRow) :=
  panicFlatMap (export_term_rows api_data cv_config_map subset_config)
    subset_config.term_ids

/-- Embedding of `table_for_export` (src/pombase/annotation_util.rs
lines 10-95).  The source threads a `seen` hash set and a `result`
vector through the generation loops, pushing each built row only if
unseen; since row generation never reads that state, the embedding
factors the function as generation (`export_generated_rows`, the rows
in the order the loops build them) followed by `dedupFirst`, which
replays exactly the seen-set/push loop (`dedupStep`) over that order. -/
def table_for_export (api_data : APIData)
    (cv_config_map : String → Option ExportCvConfig)
    (subset_config : AnnotationSubsetConfig) : PanicOr (List ExportRow) :=
  match export_generated_rows api_data cv_config_map subset_config with
  | PanicOr.panicked m => PanicOr.panicked m
  | PanicOr.ret rows => PanicOr.ret (dedupFirst rows)

/-! ## Search façade (src/pombase/api/search.rs, src/bin/pombase-server.rs) -/

/-- Embedding of `SolrTermSummary` from src/pombase/web/data.rs,
restricted to its identity and display fields (the `xrefs` map and
synonym word blobs are carried as plain data or elided). -/
structure SolrTermSummary where
  id : String
  name : String
  cv_name : String
  definition : Option String
  close_synonyms : List String
  close_synonym_words : String
  distant_synonyms : List String
  distant_synonym_words : String
  deriving Repr, DecidableEq

/-- Embedding of `SolrResponse` from src/pombase/api/search.rs. -/
structure SolrResponse where
  docs : List SolrTermSummary
  deriving Repr, DecidableEq

/-- Embedding of `SolrResponseContainer` from src/pombase/api/search.rs. -/
structure SolrResponseContainer where
  response : SolrResponse
  deriving Repr, DecidableEq

/-- Embedding of the fetch-and-parse tail of `Search::term_complete`
(src/pombase/api/search.rs lines 109-123).  The query-URL construction
preceding it is pure string formatting and is elided, as is the early
success return for a query with no word characters; the outcome of the
HTTP GET plus JSON parse is supplied as the `fetch` argument:
`Except.error` is a `reqwest` transport error (the source propagates it
with the `?` operator), `Except.ok none` a response body on which
`serde_json::from_reader` fails (the source branch calls `panic!`), and
`Except.ok (some container)` a parsed response. -/
def term_complete (fetch : Except String (Option SolrResponseContainer)) :
    PanicOr (Except String (List SolrTermSummary)) :=
  match fetch with
  | Except.error err => PanicOr.ret (Except.error err)
  | Except.ok none => PanicOr.panicked "serde_json parse error"
  | Except.ok (some container) => PanicOr.ret (Except.ok container.response.docs)

/-- Embedding of `CompletionResponse` from src/bin/pombase-server.rs. -/
structure CompletionResponse where
  status : String
  «matches» : List SolrTermSummary
  deriving Repr, DecidableEq

/-- Embedding of the `complete` request handler
(src/bin/pombase-server.rs lines 129-154): wrap the `term_complete`
result, turning an `Err` into an error-status response with no matches;
a panic raised inside `term_complete` propagates out of the handler. -/
def complete (search_result : PanicOr (Except String (List SolrTermSummary))) :
    PanicOr CompletionResponse :=
  match search_result with
  | PanicOr.panicked m => PanicOr.panicked m
  | PanicOr.ret (Except.ok found) =>
    PanicOr.ret { status := "Ok", «matches» := found }
  | PanicOr.ret (Except.error _) =>
    PanicOr.ret { status := "Error", «matches» := [] }

/-! ## Supporting notions and lemmas for the query engine -/

/-- The immediate child nodes of a query-tree node. -/
def QueryNode.children : QueryNode → List QueryNode
  | QueryNode.Or nodes => nodes
  | QueryNode.And nodes => nodes
  | QueryNode.Not node_a node_b => [node_a, node_b]
  | QueryNode.Term _ _ _ _ => []
  | QueryNode.Subset _ => []
  | QueryNode.GeneList _ => []
  | QueryNode.IntRange _ _ _ => []
  | QueryNode.FloatRange _ _ _ => []

/-- `Subnode s t`: `s` is a strict descendant of `t` in the query tree. -/
def Subnode (s t : QueryNode) : Prop :=
  Relation.TransGen (fun a b => a ∈ b.children) s t

/-- Whether the tree contains an `Or` or `And` node with no child. -/
def QueryNode.containsEmptyBool : QueryNode → Bool
  | QueryNode.Or nodes =>
    nodes.isEmpty || nodes.attach.any (fun x => x.1.containsEmptyBool)
  | QueryNode.And nodes =>
    nodes.isEmpty || nodes.attach.any (fun x => x.1.containsEmptyBool)
  | QueryNode.Not node_a node_b =>
    node_a.containsEmptyBool || node_b.containsEmptyBool
  | QueryNode.Term _ _ _ _ => false
  | QueryNode.Subset _ => false
  | QueryNode.GeneList _ => false
  | QueryNode.IntRange _ _ _ => false
  | QueryNode.FloatRange _ _ _ => false
termination_by t => sizeOf t
decreasing_by
  all_goals simp_wf
  all_goals first
    | (have h := List.sizeOf_lt_of_mem x.2
       omega)
    | omega

/-- A list of child nodes together with their successful results. -/
def NodesOk (sd : ServerData) (nodes : List QueryNode)
    (results : List (List GeneUniquename)) : Prop :=
  List.Forall₂ (fun n r => QueryNode.exec sd n = Except.ok r) nodes results

theorem exec_or_nodes_ok (sd : ServerData) {nodes : List QueryNode}
    {results : List (List GeneUniquename)} (h : NodesOk sd nodes results) :
    ∀ seen res, exec_or_nodes sd nodes (seen, res)
      = Except.ok (res ++ dedupFirstFrom seen results.flatten) := by
  induction h with
  | nil => intro seen res; simp [exec_or_nodes, dedupFirstFrom]
  | @cons n r nodes results hn _ ih =>
    intro seen res
    rw [exec_or_nodes, hn]
    show exec_or_nodes sd nodes (stepAll (seen, res) r) = _
    rw [stepAll_eq, ih, List.flatten_cons, dedupFirstFrom_append, List.append_assoc]

theorem exec_or_nodes_err (sd : ServerData) (nodes : List QueryNode)
    (h : ∃ n ∈ nodes, ∃ e, QueryNode.exec sd n = Except.error e) :
    ∀ st, ∃ e, exec_or_nodes sd nodes st = Except.error e
      ∧ ∃ n ∈ nodes, QueryNode.exec sd n = Except.error e := by
  induction nodes with
  | nil => simp at h
  | cons n rest ih =>
    intro st
    cases hexec : QueryNode.exec sd n with
    | error e =>
      refine ⟨e, ?_, n, List.mem_cons_self n rest, hexec⟩
      rw [exec_or_nodes, hexec]
    | ok r =>
      obtain ⟨n', hmem, e', he'⟩ := h
      rcases List.mem_cons.mp hmem with rfl | hmem'
      · rw [hexec] at he'; cases he'
      · obtain ⟨e2, hrun, n2, hmem2, he2⟩ := ih ⟨n', hmem', e', he'⟩ (stepAll st r)
        refine ⟨e2, ?_, n2, List.mem_cons_of_mem n hmem2, he2⟩
        rw [exec_or_nodes, hexec]
        exact hrun

theorem exec_and_nodes_ok (sd : ServerData) {nodes : List QueryNode}
    {results : List (List GeneUniquename)} (h : NodesOk sd nodes results) :
    ∀ cur, exec_and_nodes sd nodes cur
      = Except.ok (cur.filter (fun g => results.all (fun r => r.contains g))) := by
  induction h with
  | nil => intro cur; simp [exec_and_nodes]
  | @cons n r nodes results hn _ ih =>
    intro cur
    rw [exec_and_nodes, hn]
    show exec_and_nodes sd nodes (cur.filter fun g => r.contains g) = _
    rw [ih, List.filter_filter]
    refine congrArg Except.ok ?_
    apply List.filter_congr
    intro g _
    simp [List.all_cons, Bool.and_comm]

theorem exec_and_nodes_err (sd : ServerData) (nodes : List QueryNode)
    (h : ∃ n ∈ nodes, ∃ e, QueryNode.exec sd n = Except.error e) :
    ∀ cur, ∃ e, exec_and_nodes sd nodes cur = Except.error e
      ∧ ∃ n ∈ nodes, QueryNode.exec sd n = Except.error e := by
  induction nodes with
  | nil => simp at h
  | cons n rest ih =>
    intro cur
    cases hexec : QueryNode.exec sd n with
    | error e =>
      refine ⟨e, ?_, n, List.mem_cons_self n rest, hexec⟩
      rw [exec_and_nodes, hexec]
    | ok r =>
      obtain ⟨n', hmem, e', he'⟩ := h
      rcases List.mem_cons.mp hmem with rfl | hmem'
      · rw [hexec] at he'; cases he'
      · obtain ⟨e2, hrun, n2, hmem2, he2⟩ :=
          ih ⟨n', hmem', e', he'⟩ (cur.filter fun g => r.contains g)
        refine ⟨e2, ?_, n2, List.mem_cons_of_mem n hmem2, he2⟩
        rw [exec_and_nodes, hexec]
        exact hrun

theorem nodesOk_of_no_err (sd : ServerData) (nodes : List QueryNode)
    (h : ∀ n ∈ nodes, ∀ e, QueryNode.exec sd n ≠ Except.error e) :
    ∃ results, NodesOk sd nodes results := by
  induction nodes with
  | nil => exact ⟨[], List.Forall₂.nil⟩
  | cons n rest ih =>
    obtain ⟨results, hres⟩ := ih (fun m hm => h m (List.mem_cons_of_mem n hm))
    cases hexec : QueryNode.exec sd n with
    | error e => exact absurd hexec (h n (List.mem_cons_self n rest) e)
    | ok r => exact ⟨r :: results, List.Forall₂.cons hexec hres⟩

theorem exec_or_empty (sd : ServerData) :
    QueryNode.exec sd (QueryNode.Or [])
      = Except.error "illegal query: OR operator has no nodes" := by
  simp [QueryNode.exec]

theorem exec_and_empty (sd : ServerData) :
    QueryNode.exec sd (QueryNode.And [])
      = Except.error "illegal query: AND operator has no nodes" := by
  simp [QueryNode.exec]

theorem child_err_propagates (sd : ServerData) (t : QueryNode)
    (h : ∃ c ∈ t.children, ∃ e, QueryNode.exec sd c = Except.error e) :
    ∃ e, QueryNode.exec sd t = Except.error e
      ∧ ∃ c ∈ t.children, QueryNode.exec sd c = Except.error e := by
  cases t with
  | Or nodes =>
    have hne : nodes.length ≠ 0 := by
      obtain ⟨c, hc, _⟩ := h
      cases nodes with
      | nil => cases hc
      | cons _ _ => simp
    obtain ⟨e, hrun, c, hc, hce⟩ :=
      exec_or_nodes_err sd nodes (by simpa [QueryNode.children] using h) ([], [])
    refine ⟨e, ?_, c, hc, hce⟩
    rw [QueryNode.exec, if_neg hne]
    exact hrun
  | And nodes =>
    cases nodes with
    | nil => simp [QueryNode.children] at h
    | cons first rest =>
      cases hfe : QueryNode.exec sd first with
      | error e =>
        refine ⟨e, ?_, first, List.mem_cons_self first rest, hfe⟩
        rw [QueryNode.exec]
        simp [hfe]
      | ok v =>
        obtain ⟨c, hc, e', hce⟩ := h
        rcases List.mem_cons.mp hc with rfl | hc'
        · rw [hfe] at hce; cases hce
        · obtain ⟨e2, hrun, c2, hc2, hce2⟩ :=
            exec_and_nodes_err sd rest ⟨c, hc', e', hce⟩ (dedupFirst v)
          refine ⟨e2, ?_, c2, List.mem_cons_of_mem first hc2, hce2⟩
          rw [QueryNode.exec]
          simp [hfe]
          exact hrun
  | Not node_a node_b =>
    cases hbe : QueryNode.exec sd node_b with
    | error e =>
      refine ⟨e, ?_, node_b, by simp [QueryNode.children], hbe⟩
      rw [QueryNode.exec]
      simp [hbe]
    | ok vb =>
      obtain ⟨c, hc, e', hce⟩ := h
      simp only [QueryNode.children, List.mem_cons, List.not_mem_nil, or_false] at hc
      rcases hc with rfl | rfl
      · refine ⟨e', ?_, c, by simp [QueryNode.children], hce⟩
        rw [QueryNode.exec]
        simp [hbe, hce]
      · rw [hbe] at hce; cases hce
  | Term termid name sma expr => simp [QueryNode.children] at h
  | Subset s => simp [QueryNode.children] at h
  | GeneList ids => simp [QueryNode.children] at h
  | IntRange rt s e => simp [QueryNode.children] at h
  | FloatRange rt s e => simp [QueryNode.children] at h

theorem subnode_err_lift (sd : ServerData) {s t : QueryNode} (hst : Subnode s t)
    (hs : ∃ e, QueryNode.exec sd s = Except.error e) :
    ∃ e, QueryNode.exec sd t = Except.error e := by
  induction hst with
  | single h =>
    obtain ⟨e, he⟩ := hs
    obtain ⟨e2, h2, _⟩ := child_err_propagates sd _ ⟨s, h, e, he⟩
    exact ⟨e2, h2⟩
  | tail hab hbc ih =>
    obtain ⟨e, he⟩ := ih
    obtain ⟨e2, h2, _⟩ := child_err_propagates sd _ ⟨_, hbc, e, he⟩
    exact ⟨e2, h2⟩

theorem containsEmptyBool_err (sd : ServerData) :
    ∀ (k : Nat) (t : QueryNode), sizeOf t ≤ k → t.containsEmptyBool = true →
      ∃ e, QueryNode.exec sd t = Except.error e := by
  intro k
  induction k with
  | zero => intro t ht; cases t <;> simp at ht
  | succ k ih =>
    intro t ht hc
    cases t with
    | Or nodes =>
      rw [QueryNode.containsEmptyBool] at hc
      simp only [Bool.or_eq_true] at hc
      rcases hc with hemp | hany
      · have : nodes = [] := List.isEmpty_iff.mp hemp
        subst this
        exact ⟨_, exec_or_empty sd⟩
      · obtain ⟨x, _, hcx⟩ := List.any_eq_true.mp hany
        have hn : x.1 ∈ nodes := x.2
        have hsz : sizeOf x.1 < sizeOf nodes := List.sizeOf_lt_of_mem hn
        have hsz2 : sizeOf (QueryNode.Or nodes) = 1 + sizeOf nodes := by simp
        have hx : ∃ e, QueryNode.exec sd x.1 = Except.error e :=
          ih x.1 (by omega) hcx
        obtain ⟨e, he⟩ := hx
        obtain ⟨e2, h2, _⟩ := child_err_propagates sd (QueryNode.Or nodes)
          ⟨x.1, by simpa [QueryNode.children] using hn, e, he⟩
        exact ⟨e2, h2⟩
    | And nodes =>
      rw [QueryNode.containsEmptyBool] at hc
      simp only [Bool.or_eq_true] at hc
      rcases hc with hemp | hany
      · have : nodes = [] := List.isEmpty_iff.mp hemp
        subst this
        exact ⟨_, exec_and_empty sd⟩
      · obtain ⟨x, _, hcx⟩ := List.any_eq_true.mp hany
        have hn : x.1 ∈ nodes := x.2
        have hsz : sizeOf x.1 < sizeOf nodes := List.sizeOf_lt_of_mem hn
        have hsz2 : sizeOf (QueryNode.And nodes) = 1 + sizeOf nodes := by simp
        have hx : ∃ e, QueryNode.exec sd x.1 = Except.error e :=
          ih x.1 (by omega) hcx
        obtain ⟨e, he⟩ := hx
        obtain ⟨e2, h2, _⟩ := child_err_propagates sd (QueryNode.And nodes)
          ⟨x.1, by simpa [QueryNode.children] using hn, e, he⟩
        exact ⟨e2, h2⟩
    | Not node_a node_b =>
      rw [QueryNode.containsEmptyBool] at hc
      have hsz2 : sizeOf (QueryNode.Not node_a node_b)
          = 1 + sizeOf node_a + sizeOf node_b := by simp
      have hsa : 1 ≤ sizeOf node_a := by cases node_a <;> simp <;> omega
      have hsb : 1 ≤ sizeOf node_b := by cases node_b <;> simp <;> omega
      simp only [Bool.or_eq_true] at hc
      rcases hc with ha | hb
      · obtain ⟨e, he⟩ := ih node_a (by omega) ha
        obtain ⟨e2, h2, _⟩ := child_err_propagates sd (QueryNode.Not node_a node_b)
          ⟨node_a, by simp [QueryNode.children], e, he⟩
        exact ⟨e2, h2⟩
      · obtain ⟨e, he⟩ := ih node_b (by omega) hb
        obtain ⟨e2, h2, _⟩ := child_err_propagates sd (QueryNode.Not node_a node_b)
          ⟨node_b, by simp [QueryNode.children], e, he⟩
        exact ⟨e2, h2⟩
    | Term termid name sma expr => rw [QueryNode.containsEmptyBool] at hc; cases hc
    | Subset s => rw [QueryNode.containsEmptyBool] at hc; cases hc
    | GeneList ids => rw [QueryNode.containsEmptyBool] at hc; cases hc
    | IntRange rt s e => rw [QueryNode.containsEmptyBool] at hc; cases hc
    | FloatRange rt s e => rw [QueryNode.containsEmptyBool] at hc; cases hc

/-- A minimal concrete server-data value for concrete instantiations. -/
def emptyServerData : ServerData :=
  { geneSummaries := [],
    genes_of_termid := fun _ => [],
    genes_of_genotypes := fun _ _ _ => [],
    genes_of_subset := fun _ => [] }

/-! ## Claims about the query engine -/

/-- C1 (amended): for every list of query nodes and every server data
value, evaluating `Or(nodes)` returns an error exactly when the node
list is empty or some child evaluation returns an error; when the list
is nonempty and every child evaluates successfully, it returns the
concatenation of the children result lists with duplicates removed,
keeping only the first occurrence of each gene id in first-seen order,
so no gene id appears twice in the result. -/
theorem claim_C1 (sd : ServerData) (nodes : List QueryNode) :
    ((∃ e, QueryNode.exec sd (QueryNode.Or nodes) = Except.error e)
      ↔ (nodes = [] ∨ ∃ n ∈ nodes, ∃ e, QueryNode.exec sd n = Except.error e))
    ∧ (∀ results, NodesOk sd nodes results → nodes ≠ [] →
        QueryNode.exec sd (QueryNode.Or nodes)
            = Except.ok (dedupFirst results.flatten)
          ∧ (dedupFirst results.flatten).Nodup
          ∧ (∀ g, g ∈ dedupFirst results.flatten ↔ ∃ r ∈ results, g ∈ r)) := by
  have hok : ∀ results, NodesOk sd nodes results → nodes ≠ [] →
      QueryNode.exec sd (QueryNode.Or nodes) = Except.ok (dedupFirst results.flatten) := by
    intro results h hne
    have hlen : nodes.length ≠ 0 := fun h0 => hne (List.length_eq_zero.mp h0)
    rw [QueryNode.exec, if_neg hlen]
    simpa [dedupFirst] using exec_or_nodes_ok sd h [] []
  refine ⟨⟨?_, ?_⟩, ?_⟩
  · rintro ⟨e, he⟩
    by_contra hcon
    push_neg at hcon
    obtain ⟨hne, hnoerr⟩ := hcon
    obtain ⟨results, hres⟩ := nodesOk_of_no_err sd nodes hnoerr
    rw [hok results hres hne] at he
    cases he
  · rintro (rfl | ⟨n, hn, e, he⟩)
    · exact ⟨_, exec_or_empty sd⟩
    · have hlen : nodes.length ≠ 0 := by
        cases nodes with
        | nil => cases hn
        | cons _ _ => simp
      obtain ⟨e2, hrun, _⟩ := exec_or_nodes_err sd nodes ⟨n, hn, e, he⟩ ([], [])
      refine ⟨e2, ?_⟩
      rw [QueryNode.exec, if_neg hlen]
      exact hrun
  · intro results h hne
    refine ⟨hok results h hne, nodup_dedupFirst _, ?_⟩
    intro g
    rw [mem_dedupFirst]
    simp [List.mem_flatten]

/-- C1 counterexample: `Or([And([])])` has a nonempty node list and yet
evaluates to an error (the error of its child), refuting the claim that
`Or(nodes)` returns an error if and only if the node list is empty. -/
theorem claim_C1_counterexample :
    QueryNode.exec emptyServerData (QueryNode.Or [QueryNode.And []])
      = Except.error "illegal query: AND operator has no nodes"
    ∧ ([QueryNode.And []] : List QueryNode) ≠ [] := by
  constructor
  · simp [QueryNode.exec, exec_or_nodes]
  · simp

/-- C1 witness: the amended theorem applied to two concrete `GeneList`
children with an overlapping gene id. -/
theorem claim_C1_witness :
    QueryNode.exec emptyServerData
        (QueryNode.Or [QueryNode.GeneList ["g1", "g2"], QueryNode.GeneList ["g2", "g3"]])
      = Except.ok ["g1", "g2", "g3"] := by
  have h := (claim_C1 emptyServerData
      [QueryNode.GeneList ["g1", "g2"], QueryNode.GeneList ["g2", "g3"]]).2
    [["g1", "g2"], ["g2", "g3"]]
    (by simp [NodesOk, List.forall₂_cons, QueryNode.exec, exec_gene_list])
    (by simp)
  refine h.1.trans ?_
  rfl

/-- C2: for every nonempty list of query nodes whose children all
evaluate successfully, `And(nodes)` succeeds with a duplicate-free
result whose gene ids are exactly those present in every child result
(order-independent set equality); `And([])` returns an error. -/
theorem claim_C2 (sd : ServerData) :
    (∀ nodes results, NodesOk sd nodes results → nodes ≠ [] →
      ∃ res, QueryNode.exec sd (QueryNode.And nodes) = Except.ok res
        ∧ res.Nodup
        ∧ (∀ g, g ∈ res ↔ ∀ r ∈ results, g ∈ r))
    ∧ QueryNode.exec sd (QueryNode.And [])
        = Except.error "illegal query: AND operator has no nodes" := by
  constructor
  · intro nodes results h hne
    cases h with
    | nil => exact absurd rfl hne
    | @cons n r nodes' results' hn htail =>
      have hstep : QueryNode.exec sd (QueryNode.And (n :: nodes'))
          = exec_and_nodes sd nodes' (dedupFirst r) := by
        rw [QueryNode.exec]
        simp [hn]
      rw [hstep, exec_and_nodes_ok sd htail (dedupFirst r)]
      refine ⟨_, rfl, List.Nodup.filter _ (nodup_dedupFirst r), ?_⟩
      intro g
      simp only [List.mem_filter, mem_dedupFirst, List.all_eq_true,
        List.forall_mem_cons]
      constructor
      · rintro ⟨h1, h2⟩
        exact ⟨h1, fun r' hr' => List.elem_iff.mp (h2 r' hr')⟩
      · rintro ⟨h1, h2⟩
        exact ⟨h1, fun r' hr' => List.elem_iff.mpr (h2 r' hr')⟩
  · exact exec_and_empty sd

/-- C2 witness: the theorem applied to two concrete `GeneList` children
with one shared gene id. -/
theorem claim_C2_witness :
    ∃ res, QueryNode.exec emptyServerData
        (QueryNode.And [QueryNode.GeneList ["g1", "g2"], QueryNode.GeneList ["g2", "g3"]])
        = Except.ok res
      ∧ res.Nodup
      ∧ (∀ g, g ∈ res ↔ ∀ r ∈ [["g1", "g2"], ["g2", "g3"]], g ∈ r) :=
  (claim_C2 emptyServerData).1
    [QueryNode.GeneList ["g1", "g2"], QueryNode.GeneList ["g2", "g3"]]
    [["g1", "g2"], ["g2", "g3"]]
    (by simp [NodesOk, List.forall₂_cons, QueryNode.exec, exec_gene_list])
    (by simp)

/-- C3: for query nodes `a` and `b` that both evaluate successfully,
`Not(a, b)` returns exactly the elements of the result of `a` that are
not in the result of `b`, preserving the order of `a` (a sublist of it);
its result is disjoint from the result of `b`, and its union with the
intersection of the results of `a` and `b` is the result of `a`. -/
theorem claim_C3 (sd : ServerData) (node_a node_b : QueryNode)
    (va vb : List GeneUniquename)
    (ha : QueryNode.exec sd node_a = Except.ok va)
    (hb : QueryNode.exec sd node_b = Except.ok vb) :
    QueryNode.exec sd (QueryNode.Not node_a node_b)
      = Except.ok (va.filter (fun g => !(vb.contains g)))
    ∧ (∀ g, g ∈ va.filter (fun g => !(vb.contains g)) ↔ g ∈ va ∧ g ∉ vb)
    ∧ (∀ g, g ∈ va.filter (fun g => !(vb.contains g)) → g ∉ vb)
    ∧ (∀ g, (g ∈ va.filter (fun g => !(vb.contains g)) ∨ (g ∈ va ∧ g ∈ vb)) ↔ g ∈ va)
    ∧ (va.filter (fun g => !(vb.contains g))).Sublist va := by
  have hmem : ∀ g, g ∈ va.filter (fun g => !(vb.contains g)) ↔ g ∈ va ∧ g ∉ vb := by
    intro g
    simp [List.mem_filter, List.elem_iff]
  refine ⟨?_, hmem, ?_, ?_, List.filter_sublist va⟩
  · rw [QueryNode.exec]
    simp [hb, ha]
  · intro g hg
    exact ((hmem g).mp hg).2
  · intro g
    constructor
    · rintro (hg | ⟨hg, _⟩)
      · exact ((hmem g).mp hg).1
      · exact hg
    · intro hg
      by_cases hgb : g ∈ vb
      · exact Or.inr ⟨hg, hgb⟩
      · exact Or.inl ((hmem g).mpr ⟨hg, hgb⟩)

/-- C3 witness: the theorem applied to two concrete `GeneList` nodes. -/
theorem claim_C3_witness :
    QueryNode.exec emptyServerData
        (QueryNode.Not (QueryNode.GeneList ["g1", "g2"]) (QueryNode.GeneList ["g2", "g3"]))
      = Except.ok ["g1"] := by
  have h := claim_C3 emptyServerData
    (QueryNode.GeneList ["g1", "g2"]) (QueryNode.GeneList ["g2", "g3"])
    ["g1", "g2"] ["g2", "g3"]
    (by simp [QueryNode.exec, exec_gene_list])
    (by simp [QueryNode.exec, exec_gene_list])
  refine h.1.trans ?_
  rfl

/-- C4: query evaluation is total (it returns a typed `Except` value,
never a panic) and propagates errors: if any strict subnode of a tree
evaluates to an error, the whole tree evaluates to an error, and the
error value returned is exactly the error of one of its erring
subnodes, unchanged; a tree containing an `Or` or `And` node with an
empty child list always evaluates to a typed error; and the top-level
`Query::exec` returns the constraint evaluation error unchanged. -/
theorem claim_C4 (sd : ServerData) :
    (∀ t : QueryNode,
      (∃ s, Subnode s t ∧ ∃ e, QueryNode.exec sd s = Except.error e) →
      ∃ e, QueryNode.exec sd t = Except.error e
        ∧ ∃ s, Subnode s t ∧ QueryNode.exec sd s = Except.error e)
    ∧ (∀ t : QueryNode, t.containsEmptyBool = true →
        ∃ e, QueryNode.exec sd t = Except.error e)
    ∧ (∀ (q : Query) (e : String),
        Query.exec q sd = Except.error e
          ↔ QueryNode.exec sd q.constraints = Except.error e) := by
  refine ⟨?_, ?_, ?_⟩
  · rintro t ⟨s, hsub, e, he⟩
    cases hsub with
    | single h =>
      obtain ⟨e2, h2, c, hc, hce⟩ := child_err_propagates sd t ⟨s, h, e, he⟩
      exact ⟨e2, h2, c, Relation.TransGen.single hc, hce⟩
    | tail h1 h2 =>
      obtain ⟨e1, hb1⟩ := subnode_err_lift sd h1 ⟨e, he⟩
      obtain ⟨e2, hex, c, hc, hce⟩ := child_err_propagates sd t ⟨_, h2, e1, hb1⟩
      exact ⟨e2, hex, c, Relation.TransGen.single hc, hce⟩
  · intro t hc
    exact containsEmptyBool_err sd (sizeOf t) t (le_refl _) hc
  · intro q e
    unfold Query.exec
    cases hq : QueryNode.exec sd q.constraints with
    | error e2 => simp
    | ok v => simp [Query.make_result_rows]

/-- C4 witness: the theorem applied at a tree whose subnode `And([])`
errs, and at a tree containing an empty boolean operator. -/
theorem claim_C4_witness :
    (∃ e, QueryNode.exec emptyServerData (QueryNode.Or [QueryNode.And []])
        = Except.error e
      ∧ ∃ s, Subnode s (QueryNode.Or [QueryNode.And []])
          ∧ QueryNode.exec emptyServerData s = Except.error e)
    ∧ (∃ e, QueryNode.exec emptyServerData
        (QueryNode.Not (QueryNode.And []) (QueryNode.GeneList ["g1"]))
        = Except.error e) := by
  constructor
  · exact (claim_C4 emptyServerData).1 (QueryNode.Or [QueryNode.And []])
      ⟨QueryNode.And [], Relation.TransGen.single (by simp [QueryNode.children]),
        "illegal query: AND operator has no nodes", by simp [QueryNode.exec]⟩
  · exact (claim_C4 emptyServerData).2.1
      (QueryNode.Not (QueryNode.And []) (QueryNode.GeneList ["g1"]))
      (by simp [QueryNode.containsEmptyBool])

/-- C5: range filters.  The three `exec_*_range` functions return the
uniquenames of the gene summaries accepted by their filter, dispatched
from `exec_int_range`/`exec_float_range`; a gene with no transcripts,
or whose first transcript has no protein, never matches the
protein-derived filters (protein length, molecular weight), for all
bounds including both absent; a gene that has the scalar matches
exactly when the scalar is at least `start` (when present) and at most
`end` (when present), an absent bound being unbounded on that side; and
the exon-count filter matches exactly under the same bound conditions
on the exon count. -/
theorem claim_C5 (sd : ServerData) (start «end» : Option Nat)
    (fstart fend : Option Rat) :
    (exec_protein_length_range sd start «end»
        = Except.ok ((sd.geneSummaries.filter (protein_length_filter start «end»)).map
            (fun gene => gene.uniquename))
      ∧ exec_mol_weight_range sd fstart fend
        = Except.ok ((sd.geneSummaries.filter (mol_weight_filter fstart fend)).map
            (fun gene => gene.uniquename))
      ∧ exec_exon_count_range sd start «end»
        = Except.ok ((sd.geneSummaries.filter (exon_count_filter start «end»)).map
            (fun gene => gene.uniquename))
      ∧ exec_int_range sd IntRangeType.ProteinLength start «end»
        = exec_protein_length_range sd start «end»
      ∧ exec_int_range sd IntRangeType.ExonCount start «end»
        = exec_exon_count_range sd start «end»
      ∧ exec_float_range sd FloatRangeType.ProteinMolWeight fstart fend
        = exec_mol_weight_range sd fstart fend)
    ∧ (∀ gene : APIGeneSummary, gene.transcripts = [] →
        protein_length_filter start «end» gene = false
        ∧ mol_weight_filter fstart fend gene = false)
    ∧ (∀ (gene : APIGeneSummary) (t : TranscriptDetails),
        gene.transcripts.head? = some t → t.protein = none →
        protein_length_filter start «end» gene = false
        ∧ mol_weight_filter fstart fend gene = false)
    ∧ (∀ (gene : APIGeneSummary) (t : TranscriptDetails) (p : ProteinDetails),
        gene.transcripts.head? = some t → t.protein = some p →
        (protein_length_filter start «end» gene = true ↔
          ((∀ s, start = some s → s ≤ p.sequence.length)
            ∧ (∀ e, «end» = some e → p.sequence.length ≤ e))))
    ∧ (∀ (gene : APIGeneSummary) (t : TranscriptDetails) (p : ProteinDetails),
        gene.transcripts.head? = some t → t.protein = some p →
        (mol_weight_filter fstart fend gene = true ↔
          ((∀ s, fstart = some s → s ≤ p.molecular_weight)
            ∧ (∀ e, fend = some e → p.molecular_weight ≤ e))))
    ∧ (∀ gene : APIGeneSummary,
        exon_count_filter start «end» gene = true ↔
          ((∀ s, start = some s → s ≤ gene.exon_count)
            ∧ (∀ e, «end» = some e → gene.exon_count ≤ e))) := by
  refine ⟨⟨rfl, rfl, rfl, rfl, rfl, rfl⟩, ?_, ?_, ?_, ?_, ?_⟩
  · intro gene h
    constructor <;> simp [protein_length_filter, mol_weight_filter, h]
  · intro gene t ht hp
    constructor <;> simp [protein_length_filter, mol_weight_filter, ht, hp]
  · intro gene t p ht hp
    simp only [protein_length_filter, ht, hp]
    rcases start with _ | s <;> rcases «end» with _ | e <;>
      simp [ge_iff_le]
  · intro gene t p ht hp
    simp only [mol_weight_filter, ht, hp]
    rcases fstart with _ | s <;> rcases fend with _ | e <;>
      simp [ge_iff_le]
  · intro gene
    simp only [exon_count_filter]
    rcases start with _ | s <;> rcases «end» with _ | e <;>
      simp [ge_iff_le]

/-- A trivially filled gene summary used by concrete instantiations. -/
def mkGeneSummary (uniquename : String) (exon_count : Nat)
    (transcripts : List TranscriptDetails) : APIGeneSummary :=
  { uniquename := uniquename, name := none, product := none,
    uniprot_identifier := none, exact_synonyms := [], dbxrefs := [],
    location := none, transcripts := transcripts, tm_domain_count := 0,
    exon_count := exon_count }

/-- A gene with one exon and no transcripts. -/
def witnessGene1 : APIGeneSummary := mkGeneSummary "g1" 1 []

/-- A gene with three exons and no transcripts. -/
def witnessGene3 : APIGeneSummary := mkGeneSummary "g3" 3 []

/-- A gene with five exons and no transcripts. -/
def witnessGene5 : APIGeneSummary := mkGeneSummary "g5" 5 []

/-- Server data holding the three concrete genes. -/
def rangeServerData : ServerData :=
  { geneSummaries := [witnessGene1, witnessGene3, witnessGene5],
    genes_of_termid := fun _ => [],
    genes_of_genotypes := fun _ _ _ => [],
    genes_of_subset := fun _ => [] }

/-- C5 witness: `IntRange(ExonCount, start=2, end=4)` matches the gene
with exactly 3 exons and excludes the genes with 1 and 5 exons, and a
gene with no transcript never matches the protein-length filter. -/
theorem claim_C5_witness :
    exec_exon_count_range rangeServerData (some 2) (some 4) = Except.ok ["g3"]
    ∧ exon_count_filter (some 2) (some 4) witnessGene3 = true
    ∧ exon_count_filter (some 2) (some 4) witnessGene1 = false
    ∧ exon_count_filter (some 2) (some 4) witnessGene5 = false
    ∧ protein_length_filter (some 2) (some 4) witnessGene1 = false := by
  have h := claim_C5 rangeServerData (some 2) (some 4) (none : Option Rat) none
  refine ⟨?_, ?_, ?_, ?_, ?_⟩
  · exact (h.1.2.2.1).trans (by rfl)
  · apply (h.2.2.2.2.2 witnessGene3).mpr
    constructor
    · intro s hs
      cases hs
      show 2 ≤ witnessGene3.exon_count
      decide
    · intro e he
      cases he
      show witnessGene3.exon_count ≤ 4
      decide
  · rw [Bool.eq_false_iff]
    intro htrue
    have h2 := ((h.2.2.2.2.2 witnessGene1).mp htrue).1 2 rfl
    revert h2
    decide
  · rw [Bool.eq_false_iff]
    intro htrue
    have h2 := ((h.2.2.2.2.2 witnessGene5).mp htrue).2 4 rfl
    revert h2
    decide
  · exact (h.2.1 witnessGene1 rfl).1

/-! ## Claims about the data model operations -/

/-- C10: `spliced_transcript_sequence` returns `none` for a gene with
no transcripts, returns the in-order concatenation of the residues of
the Exon-typed parts of the single transcript for a one-transcript
gene, and panics with "no support for multi-transcript genes" for a
gene with more than one transcript; under the precondition of at most
one transcript it is total and never panics. -/
theorem claim_C10 (gene : GeneDetails) :
    (gene.transcripts = [] →
      gene.spliced_transcript_sequence = PanicOr.ret none)
    ∧ (∀ t : TranscriptDetails, gene.transcripts = [t] →
        gene.spliced_transcript_sequence
          = PanicOr.ret (some (String.join ((t.parts.filter
              (fun part => part.feature_type = FeatureType.Exon)).map
              (fun part => part.residues)))))
    ∧ (gene.transcripts.length > 1 →
        gene.spliced_transcript_sequence
          = PanicOr.panicked "no support for multi-transcript genes")
    ∧ (gene.transcripts.length ≤ 1 →
        ∃ v, gene.spliced_transcript_sequence = PanicOr.ret v) := by
  have hsingle : ∀ t : TranscriptDetails, gene.transcripts = [t] →
      gene.spliced_transcript_sequence
        = PanicOr.ret (some (String.join ((t.parts.filter
            (fun part => part.feature_type = FeatureType.Exon)).map
            (fun part => part.residues)))) := by
    intro t h
    unfold GeneDetails.spliced_transcript_sequence
    rw [h]
    simp only [List.length_cons, List.length_nil, gt_iff_lt, List.head?_cons]
    rw [if_neg (by omega)]
    rw [String.join, List.foldl_map]
  refine ⟨?_, hsingle, ?_, ?_⟩
  · intro h
    simp [GeneDetails.spliced_transcript_sequence, h]
  · intro h
    unfold GeneDetails.spliced_transcript_sequence
    rw [if_pos h]
  · intro h
    cases hts : gene.transcripts with
    | nil =>
      refine ⟨none, ?_⟩
      simp [GeneDetails.spliced_transcript_sequence, hts]
    | cons t rest =>
      cases rest with
      | nil => exact ⟨_, hsingle t hts⟩
      | cons t2 rest2 => rw [hts] at h; simp at h

/-- A concrete location for witness values. -/
def witnessLocation : ChromosomeLocation :=
  { chromosome_name := "chr1", start_pos := 1, end_pos := 10,
    strand := Strand.Forward, phase := none }

/-- A concrete transcript part with the given type and residues. -/
def mkPart (ft : FeatureType) (res : String) : FeatureShort :=
  { feature_type := ft, uniquename := "part1", location := witnessLocation,
    residues := res }

/-- A transcript with two exons separated by an intron. -/
def witnessTranscript : TranscriptDetails :=
  { uniquename := "tr1", location := witnessLocation,
    parts := [mkPart FeatureType.Exon "AT", mkPart FeatureType.CdsIntron "GG",
              mkPart FeatureType.Exon "CC"],
    transcript_type := "mRNA", protein := none, cds_location := none }

/-- C10 witness: the theorem applied to a transcript-less gene, to a
one-transcript gene (the intron residues are skipped), and to a
two-transcript gene (panic). -/
theorem claim_C10_witness :
    GeneDetails.spliced_transcript_sequence { uniquename := "gene0", transcripts := [] }
      = PanicOr.ret none
    ∧ GeneDetails.spliced_transcript_sequence
        { uniquename := "gene1", transcripts := [witnessTranscript] }
      = PanicOr.ret (some "ATCC")
    ∧ GeneDetails.spliced_transcript_sequence
        { uniquename := "gene2", transcripts := [witnessTranscript, witnessTranscript] }
      = PanicOr.panicked "no support for multi-transcript genes" := by
  refine ⟨?_, ?_, ?_⟩
  · exact (claim_C10 _).1 rfl
  · refine ((claim_C10 _).2.1 witnessTranscript rfl).trans ?_
    rfl
  · exact (claim_C10 _).2.2.1 (by simp)

/-- C6 (amended): `TermShort` comparison is by name and then by termid,
so two `TermShort` values compare equal exactly when both name and
termid agree (distinct termids never compare equal); `GeneShort`
comparison puts named genes before unnamed ones and compares two
unnamed genes by uniquename, but compares two named genes by name
ONLY (no uniquename tie-break), so two named `GeneShort` values compare
equal exactly when their names agree, even with distinct uniquenames. -/
theorem claim_C6 :
    (∀ a b : TermShort, strCmp a.name b.name = Ordering.eq →
      TermShort.cmp a b = strCmp a.termid b.termid)
    ∧ (∀ a b : TermShort, strCmp a.name b.name ≠ Ordering.eq →
      TermShort.cmp a b = strCmp a.name b.name)
    ∧ (∀ a b : TermShort,
        TermShort.cmp a b = Ordering.eq ↔ (a.name = b.name ∧ a.termid = b.termid))
    ∧ (∀ a b : GeneShort, a.name.isSome → b.name = none →
        GeneShort.cmp a b = Ordering.lt)
    ∧ (∀ a b : GeneShort, a.name = none → b.name.isSome →
        GeneShort.cmp a b = Ordering.gt)
    ∧ (∀ a b : GeneShort, a.name = none → b.name = none →
        GeneShort.cmp a b = strCmp a.uniquename b.uniquename)
    ∧ (∀ (a b : GeneShort) (na nb : String), a.name = some na → b.name = some nb →
        GeneShort.cmp a b = strCmp na nb)
    ∧ (∀ (a b : GeneShort) (na nb : String), a.name = some na → b.name = some nb →
        (GeneShort.cmp a b = Ordering.eq ↔ na = nb))
    ∧ (∀ a b : GeneShort, a.name = none → b.name = none →
        (GeneShort.cmp a b = Ordering.eq ↔ a.uniquename = b.uniquename)) := by
  have hterm_eq : ∀ a b : TermShort,
      TermShort.cmp a b = Ordering.eq ↔ (a.name = b.name ∧ a.termid = b.termid) := by
    intro a b
    by_cases h : strCmp a.name b.name = Ordering.eq
    · have hname : a.name = b.name := (strCmp_eq_iff a.name b.name).mp h
      simp [TermShort.cmp, h, strCmp_eq_iff, hname]
    · simp only [TermShort.cmp, if_neg h]
      constructor
      · intro heq
        exact absurd heq h
      · rintro ⟨h1, _⟩
        exact absurd ((strCmp_eq_iff a.name b.name).mpr h1) h
  have hnamed : ∀ (a b : GeneShort) (na nb : String),
      a.name = some na → b.name = some nb → GeneShort.cmp a b = strCmp na nb := by
    intro a b na nb ha hb
    simp [GeneShort.cmp, ha, hb, optStrCmp]
  refine ⟨?_, ?_, hterm_eq, ?_, ?_, ?_, hnamed, ?_, ?_⟩
  · intro a b h
    simp [TermShort.cmp, h]
  · intro a b h
    simp [TermShort.cmp, h]
  · intro a b ha hb
    simp [GeneShort.cmp, ha, hb]
  · intro a b ha hb
    simp [GeneShort.cmp, ha, hb]
  · intro a b ha hb
    simp [GeneShort.cmp, ha, hb]
  · intro a b na nb ha hb
    rw [hnamed a b na nb ha hb, strCmp_eq_iff]
  · intro a b ha hb
    simp [GeneShort.cmp, ha, hb, strCmp_eq_iff]

/-- A named gene short form with uniquename gene1. -/
def witnessGeneShort1 : GeneShort :=
  { uniquename := "gene1", name := some "abc1", product := none }

/-- A gene short form sharing the name of the previous one but with a
different uniquename. -/
def witnessGeneShort2 : GeneShort :=
  { uniquename := "gene2", name := some "abc1", product := none }

/-- A term short form with termid T:1. -/
def witnessTermShort1 : TermShort :=
  { name := "nameA", cv_name := "cv1", interesting_parents := [],
    termid := "T:1", is_obsolete := false, gene_count := 0, genotype_count := 0 }

/-- A term short form with the same name and termid T:2. -/
def witnessTermShort2 : TermShort :=
  { name := "nameA", cv_name := "cv1", interesting_parents := [],
    termid := "T:2", is_obsolete := false, gene_count := 0, genotype_count := 0 }

/-- C6 counterexample: two named `GeneShort` values with the same name
and different uniquenames compare as equal, refuting both the
uniquename tie-break for named genes and the statement that two short
forms differing in uniquename never compare as equal. -/
theorem claim_C6_counterexample :
    GeneShort.cmp witnessGeneShort1 witnessGeneShort2 = Ordering.eq
    ∧ witnessGeneShort1.uniquename ≠ witnessGeneShort2.uniquename := by
  constructor
  · simp [GeneShort.cmp, witnessGeneShort1, witnessGeneShort2, optStrCmp, strCmp_self]
  · decide

/-- C6 witness: the amended theorem applied to concrete short forms. -/
theorem claim_C6_witness :
    TermShort.cmp witnessTermShort1 witnessTermShort2 = strCmp "T:1" "T:2"
    ∧ GeneShort.cmp { uniquename := "u1", name := some "n1", product := none }
        { uniquename := "u2", name := none, product := none }
      = Ordering.lt := by
  constructor
  · exact claim_C6.1 _ _ (strCmp_self "nameA")
  · exact claim_C6.2.2.2.1 _ _ rfl rfl

/-! ## Claims about configuration lookup and table export -/

/-- C7 (amended): a CV name missing from the configuration map is given
a default `CvConfig` by `Config::cv_config_by_name`, with the feature
type inferred from the CV name pattern ("genotype" for names starting
with "extension:" and not ending with ":gene", otherwise "gene");
however `table_for_export`, which looks up the raw cv-config map
directly, panics on a CV name with no entry rather than falling back. -/
theorem claim_C7 :
    (∀ (config : Config) (cv_name : String), config.cv_config cv_name = none →
      Config.cv_config_by_name config cv_name
        = { feature_type :=
              if strStartsWith cv_name "extension:" && !(strEndsWith cv_name ":gene")
              then "genotype" else "gene",
            filters := [], split_by_parents := [],
            summary_relations_to_hide := [],
            summary_relation_ranges_to_collect := [],
            sort_details_by := none })
    ∧ (∀ (term_details : ExportTermDetails)
        (cv_config_map : String → Option ExportCvConfig)
        (subset_config : AnnotationSubsetConfig)
        (entry : String × List ExportTermAnnotations),
        cv_config_map entry.1 = none →
        export_cv_rows term_details cv_config_map subset_config entry
          = PanicOr.panicked ("can\x27t find configuration for CV: " ++ entry.1)) := by
  constructor
  · intro config cv_name h
    unfold Config.cv_config_by_name
    rw [h]
    by_cases h1 : strStartsWith cv_name "extension:"
    · by_cases h2 : strEndsWith cv_name ":gene" <;> simp [h1, h2]
    · simp [h1]
  · intro term_details cv_config_map subset_config entry h
    unfold export_cv_rows
    rw [h]

/-- Term details naming a CV absent from the configuration map. -/
def missingCvTermDetails : ExportTermDetails :=
  { cv_annotations := [("cv_missing", [])],
    terms_by_termid := fun _ => none,
    annotation_details := fun _ => none,
    genotypes_by_uniquename := fun _ => none,
    genes_by_uniquename := fun _ => none }

/-- API data holding just the term above. -/
def missingCvAPIData : APIData :=
  { get_term_details := fun tid =>
      if tid = "T:1" then some missingCvTermDetails else none }

/-- A subset export configuration seeded with that term. -/
def missingCvSubsetConfig : AnnotationSubsetConfig :=
  { term_ids := ["T:1"], single_or_multi_allele := SingleOrMultiAllele.Single,
    columns := [] }

/-- C7 counterexample: `table_for_export` panics (is not total with a
default) on a CV name with no configuration entry, refuting "no
operation that needs a CV configuration panics on a missing entry". -/
theorem claim_C7_counterexample :
    table_for_export missingCvAPIData (fun _ => none) missingCvSubsetConfig
      = PanicOr.panicked "can\x27t find configuration for CV: cv_missing" := by
  rfl

/-- C7 witness: the amended theorem applied to an empty configuration
map and the CV name "extension:xyz". -/
theorem claim_C7_witness :
    Config.cv_config_by_name { cv_config := fun _ => none } "extension:xyz"
      = { feature_type := "genotype", filters := [], split_by_parents := [],
          summary_relations_to_hide := [],
          summary_relation_ranges_to_collect := [], sort_details_by := none }
    ∧ export_cv_rows missingCvTermDetails (fun _ => none) missingCvSubsetConfig
        ("cv_missing", [])
      = PanicOr.panicked "can\x27t find configuration for CV: cv_missing" := by
  constructor
  · refine (claim_C7.1 { cv_config := fun _ => none } "extension:xyz" rfl).trans ?_
    decide
  · exact claim_C7.2 missingCvTermDetails (fun _ => none) missingCvSubsetConfig
      ("cv_missing", []) rfl

/-- C8: whenever `table_for_export` returns a row list (rather than
panicking), that list has no two equal rows: it is `dedupFirst` of the
rows in generation order, a subsequence of them keeping each distinct
row at its first occurrence, with a second occurrence of an identical
rendered row dropped and membership otherwise preserved. -/
theorem claim_C8 (api_data : APIData)
    (cv_config_map : String → Option ExportCvConfig)
    (subset_config : AnnotationSubsetConfig)
    (rows : List ExportRow)
    (h : table_for_export api_data cv_config_map subset_config = PanicOr.ret rows) :
    rows.Nodup
    ∧ ∃ gen, export_generated_rows api_data cv_config_map subset_config
          = PanicOr.ret gen
        ∧ rows = dedupFirst gen
        ∧ rows.Sublist gen
        ∧ (∀ r, r ∈ rows ↔ r ∈ gen) := by
  unfold table_for_export at h
  cases hg : export_generated_rows api_data cv_config_map subset_config with
  | panicked m => rw [hg] at h; cases h
  | ret gen =>
    rw [hg] at h
    cases h
    exact ⟨nodup_dedupFirst gen, gen, rfl, rfl, dedupFirst_sublist gen,
      fun r => mem_dedupFirst gen r⟩

/-- A term short form for the duplicate-row witness. -/
def dupRowTermShort : TermShort :=
  { name := "nameB", cv_name := "cv1", interesting_parents := [],
    termid := "T:2", is_obsolete := false, gene_count := 0, genotype_count := 0 }

/-- A term annotation group carrying two annotation ids. -/
def dupRowTermAnnotations : ExportTermAnnotations :=
  { term := "T:2", is_not := false, annotations := [1, 2] }

/-- Term details whose single term annotation group carries two
annotation ids that render to identical rows. -/
def dupRowTermDetails : ExportTermDetails :=
  { cv_annotations := [("cv1", [dupRowTermAnnotations])],
    terms_by_termid := fun tid =>
      if tid = "T:2" then some (some dupRowTermShort) else none,
    annotation_details := fun _ => some { genes := ["g1"], genotype := none },
    genotypes_by_uniquename := fun _ => none,
    genes_by_uniquename := fun _ => none }

/-- API data holding just the term above. -/
def dupRowAPIData : APIData :=
  { get_term_details := fun tid =>
      if tid = "T:1" then some dupRowTermDetails else none }

/-- A subset export configuration with one termid column. -/
def dupRowSubsetConfig : AnnotationSubsetConfig :=
  { term_ids := ["T:1"], single_or_multi_allele := SingleOrMultiAllele.Single,
    columns := [{ name := "termid" }] }

/-- A configuration map accepting every CV with the Single class. -/
def dupRowCvConfigMap : String → Option ExportCvConfig :=
  fun _ => some { single_or_multi_allele := SingleOrMultiAllele.Single }

/-- C8 witness: on an input generating the same rendered row twice, the
export keeps a single copy; the theorem applied to it certifies the
returned list is duplicate-free. -/
theorem claim_C8_witness :
    table_for_export dupRowAPIData dupRowCvConfigMap dupRowSubsetConfig
      = PanicOr.ret [["T:2"]]
    ∧ export_generated_rows dupRowAPIData dupRowCvConfigMap dupRowSubsetConfig
      = PanicOr.ret [["T:2"], ["T:2"]]
    ∧ ([["T:2"]] : List ExportRow).Nodup := by
  have htab : table_for_export dupRowAPIData dupRowCvConfigMap dupRowSubsetConfig
      = PanicOr.ret [["T:2"]] := by rfl
  have h := claim_C8 dupRowAPIData dupRowCvConfigMap dupRowSubsetConfig [["T:2"]] htab
  exact ⟨htab, by rfl, h.1⟩

/-! ## Claims about the search façade -/

/-- C9 (amended): a transport failure of the search collaborator is
caught at the façade boundary and becomes a response with an error
status field and an empty match list, and a parsed payload becomes an
ok-status response carrying the matches; but a payload that cannot be
parsed makes `term_complete` panic, and the panic propagates out of
the `complete` handler instead of becoming a response. -/
theorem claim_C9 :
    (∀ e : String, complete (term_complete (Except.error e))
      = PanicOr.ret { status := "Error", «matches» := [] })
    ∧ (∀ c : SolrResponseContainer, complete (term_complete (Except.ok (some c)))
      = PanicOr.ret { status := "Ok", «matches» := c.response.docs })
    ∧ complete (term_complete (Except.ok none))
      = PanicOr.panicked "serde_json parse error" :=
  ⟨fun _ => rfl, fun _ => rfl, rfl⟩

/-- C9 counterexample: a malformed payload is never turned into a
response at all: the evaluation is a propagated panic, refuting "caught
at the façade boundary ... never propagated as a process crash". -/
theorem claim_C9_counterexample :
    complete (term_complete (Except.ok none))
      = PanicOr.panicked "serde_json parse error"
    ∧ ∀ r : CompletionResponse,
        complete (term_complete (Except.ok none)) ≠ PanicOr.ret r := by
  refine ⟨rfl, ?_⟩
  intro r h
  exact PanicOr.noConfusion h

end Pombase
